import Mathlib

set_option maxHeartbeats 1000000
set_option maxRecDepth 8000

/-
Verification of the generate → validate → repair loop of src/agent.py.

The program drives a generative model to produce a PDF-parsing script,
executes the candidate, compares its DataFrame output against an expected
CSV, and feeds failure evidence back for up to MAX_ATTEMPTS attempts.

The shallow embedding below models, from the source:
  * the cell-normalization pipelines of run_parser_test (lines 95-96 for the
    expected side, lines 106-113 for the produced side),
  * the comparison performed by pd.testing.assert_frame_equal(..., check_like=True)
    (line 117),
  * the exception-containment structure of run_parser_test (lines 84-130),
  * the attempt loop of main (lines 195-210),
  * the repair prompt of fix_parser (lines 136-154) and the code-fence
    extraction of generate_parser / fix_parser (lines 70-79 and 157-162).
Candidate execution itself (running generated Python) is external input and
is represented by its observable outcome (ExecOutcome).
-/

namespace BankAgent

/-! ### String utilities (Python `str.strip`, substring containment) -/

/-- Whitespace characters stripped by Python's `str.strip()` (ASCII subset;
the cells handled by the program contain only ASCII whitespace). -/
def isPySpace (c : Char) : Bool :=
  c = ' ' || c = '\t' || c = '\n' || c = '\r' || c = '\x0b' || c = '\x0c'

/-- Drops leading and trailing whitespace from a character list. -/
def stripList (l : List Char) : List Char :=
  ((l.dropWhile isPySpace).reverse.dropWhile isPySpace).reverse

/-- Models Python `s.strip()` / pandas `.str.strip()`. -/
def pyStrip (s : String) : String := String.mk (stripList s.toList)

/-- The canonical empty cell string. -/
def emptyStr : String := ""

/-- A single newline, the residue the anchored replace can leave behind. -/
def nlStr : String := "\n"

/-- Decides whether `pat` is a prefix of `t` (character lists). -/
def charsPrefixTest : List Char → List Char → Bool
  | [], _ => true
  | _ :: _, [] => false
  | a :: pa, b :: pb => a == b && charsPrefixTest pa pb

/-- Decides whether `pat` occurs as a contiguous substring of `t`. -/
def charsContains : List Char → List Char → Bool
  | pat, [] => charsPrefixTest pat []
  | pat, b :: bs => charsPrefixTest pat (b :: bs) || charsContains pat bs

/-- Models Python's `pat in s` substring test. -/
def strContains (s pat : String) : Bool := charsContains pat.toList s.toList

/-- Proposition: string `s` mentions `pat` as a contiguous substring. -/
def Mentions (pat s : String) : Prop := strContains s pat = true

/-! ### Cell values and the two normalization pipelines -/

/-- Values a produced DataFrame cell can hold after `module.parse` returns:
a Python string, float NaN, Python None, or pandas NA.  `astype(str)`
(line 107) renders the three missing variants as the strings
"nan" / "None" / "<NA>" respectively. -/
inductive PyCell where
  | pyStr : String → PyCell
  | pyNaN : PyCell
  | pyNone : PyCell
  | pyNA : PyCell
deriving DecidableEq, Repr

/-- Models `astype(str)` on a single cell (line 107). -/
def pyCellStr : PyCell → String
  | PyCell.pyStr s => s
  | PyCell.pyNaN => "nan"
  | PyCell.pyNone => "None"
  | PyCell.pyNA => "<NA>"

/-- Textual null forms collapsed by the regex `^(nan|<NA>|None)$` (line 111). -/
def textualNulls : List String := ["nan", "<NA>", "None"]

/-- Strings matched by the same regex only because Python's `$` also matches
just before a final newline: `re.sub` then leaves that newline behind. -/
def textualNullsNL : List String := ["nan\n", "<NA>\n", "None\n"]

/-- Models `result_df[col].str.replace(r'^(nan|<NA>|None)$', '', regex=True)`
(line 111): an exact textual-null cell becomes empty; a textual null followed
by one final newline loses the token and keeps the newline; everything else
is unchanged. -/
def collapseNullToken (s : String) : String :=
  if textualNulls.contains s = true then emptyStr
  else if textualNullsNL.contains s = true then nlStr else s

/-- Produced-side cell pipeline (lines 107-113): `astype(str)`, the
textual-null replace, `fillna('')` (a no-op: `astype(str)` leaves no NaN),
then `.str.strip()`. -/
def resultNormCell (c : PyCell) : String := pyStrip (collapseNullToken (pyCellStr c))

/-- Default NA tokens of `pd.read_csv` (pandas documentation, the
`na_values` default): fields equal to one of these are read as NaN even
under `dtype=str`. -/
def pandasDefaultNA : List String :=
  ["", "#N/A", "#N/A N/A", "#NA", "-1.#IND", "-1.#QNAN", "-NaN", "-nan",
   "1.#IND", "1.#QNAN", "<NA>", "N/A", "NA", "NULL", "NaN", "None", "n/a",
   "nan", "null"]

/-- Expected-side cell pipeline (lines 95-96): `pd.read_csv(csv_path, dtype=str)`
turns any default-NA field into NaN, then `fillna('')` and `.str.strip()`. -/
def expectedNormCell (s : String) : String :=
  if pandasDefaultNA.contains s = true then emptyStr else pyStrip s

/-! ### Tabular datasets and the comparator -/

/-- A tabular dataset: ordered named columns, each an ordered list of cells
(string cells, rows addressed positionally as with a fresh RangeIndex). -/
abbrev DF := List (String × List String)

/-- A produced dataset before normalization: columns of raw Python cells. -/
abbrev PyDF := List (String × List PyCell)

def colNames (d : DF) : List String := d.map Prod.fst

def nrows (d : DF) : Nat :=
  match d with
  | [] => 0
  | c :: _ => c.2.length

def ncols (d : DF) : Nat := d.length

/-- Structural sanity of a DataFrame: distinct column names and all columns
of equal length. -/
abbrev wellformed (d : DF) : Prop :=
  (colNames d).Nodup ∧ ∀ c ∈ d, c.2.length = nrows d

/-- Applies the expected-side pipeline to every cell (lines 95-96). -/
def normExpectedDF (raw : DF) : DF := raw.map (fun c => (c.1, c.2.map expectedNormCell))

/-- Applies the produced-side pipeline to every cell (lines 107-113). -/
def normResultDF (d : PyDF) : DF := d.map (fun c => (c.1, c.2.map resultNormCell))

/-- Re-injects string cells as Python string cells (`astype(str)` on an
already-string frame is the identity), used to state re-normalization. -/
def strToPy (d : DF) : PyDF := d.map (fun c => (c.1, c.2.map PyCell.pyStr))

/-- Outcome of `pd.testing.assert_frame_equal(expected, result, check_like=True)`
(line 117), as a structured report. -/
inductive Report where
  | matched : Report
  | shapeMismatch : Nat × Nat → Nat × Nat → Report
  | valueMismatch : String → Nat → Option String → String → Report
deriving DecidableEq, Repr

/-- True exactly on a value mismatch (a failed cell-level comparison). -/
def Report.isValue : Report → Bool
  | Report.valueMismatch _ _ _ _ => true
  | _ => false

/-- First position (counting from `i`) where two equal-length cell lists
differ, with both cell values. -/
def firstDiff : List String → List String → Nat → Option (Nat × String × String)
  | e :: es, b :: bs, i => if e = b then firstDiff es bs (i + 1) else some (i, e, b)
  | _, _, _ => none

/-- Compares one produced column against the expected column of the same
name; `none` on the expected side models the NaN column that
`reindex_like` inserts when the expected frame lacks that column. -/
def colMismatch : Option (List String) → List String → Option (Nat × Option String × String)
  | none, [] => none
  | none, b :: _ => some (0, none, b)
  | some es, bs => (firstDiff es bs 0).map (fun t => (t.1, some t.2.1, t.2.2))

/-- First column (in the produced frame's order) with a cell mismatch. -/
def firstColMismatch :
    List (String × Option (List String) × List String) →
    Option (String × Nat × Option String × String)
  | [] => none
  | (n, oe, bs) :: rest =>
    match colMismatch oe bs with
    | some (i, ev, bv) => some (n, i, ev, bv)
    | none => firstColMismatch rest

/-- Models `pd.testing.assert_frame_equal(e, a, check_like=True)` (line 117):
first the frame-shape check, then (with `check_like` aligning the expected
frame to the produced frame's column labels) a column-by-column,
row-order-positional cell scan; the first differing cell yields the
assertion failure. -/
def compareDF (e a : DF) : Report :=
  if (nrows e, ncols e) ≠ (nrows a, ncols a) then
    Report.shapeMismatch (nrows e, ncols e) (nrows a, ncols a)
  else
    match firstColMismatch (a.map (fun c => (c.1, List.lookup c.1 e, c.2))) with
    | some (n, i, ev, av) => Report.valueMismatch n i ev av
    | none => Report.matched

/-- Swaps two cells of one column (positions `i` and `j`). -/
def swapCells (cs : List String) (i j : Nat) : List String :=
  (cs.set i (cs.getD j emptyStr)).set j (cs.getD i emptyStr)

/-- Swaps rows `i` and `j` of a dataset. -/
def swapRows (d : DF) (i j : Nat) : DF := d.map (fun c => (c.1, swapCells c.2 i j))

/-- Row `r` of a dataset, as the list of its cells in column order. -/
def rowAt (d : DF) (r : Nat) : List String := d.map (fun c => c.2.getD r emptyStr)

/-! ### The candidate runner (run_parser_test, lines 84-130) -/

/-- Observable outcome of dynamically loading the candidate and calling its
`parse` entry point: an exception during load or execution (carrying the
exception type name and message), a `None` return, a non-DataFrame return
(carrying the rendered type), or a DataFrame. -/
inductive ExecOutcome where
  | fault : String → String → ExecOutcome
  | retNone : ExecOutcome
  | retNonDF : String → ExecOutcome
  | retDF : PyDF → ExecOutcome

def noFileMsg : String := "Parser file does not exist."

def passMsg : String := "✅ Test passed! DataFrames are identical."

def noneReturnMsg : String :=
  "The parse() function returned None, but a DataFrame was expected."

def wrongTypeMsg (ty : String) : String :=
  "The parse() function returned a " ++ ty ++ ", but a DataFrame was expected."

def feedbackHead : String := "\n        The parser failed with a \x27"

def feedbackMid : String := "\x27 error.\n        **Error Details:**\n        "

def feedbackTail : String := "\n        **Traceback:**\n        "

/-- Failure feedback built in the `except` block (lines 120-130):
the exception type name, the message with newlines re-indented, and a
traceback section (`traceback.format_exc()` is opaque runtime text and its
interpolation is omitted from the model). -/
def mkFeedback (errType errMsg : String) : String :=
  feedbackHead ++ errType ++ feedbackMid ++
    (String.replace errMsg ("\n") ("\n  ")) ++ feedbackTail

/-- Abbreviated content of the pandas assertion message raised by
`assert_frame_equal`; the exact runtime text is immaterial to the claims. -/
def reportText : Report → String
  | Report.matched => ""
  | Report.shapeMismatch el ar =>
      "DataFrame are different\n\nDataFrame shape mismatch\n[left]:  " ++ toString el ++
        "\n[right]: " ++ toString ar
  | Report.valueMismatch coln ridx ev av =>
      "DataFrame values are different at row " ++ toString ridx ++ " of column " ++
        coln ++ ": expected " ++ toString ev ++ ", got " ++ av

/-- Models run_parser_test (lines 84-130).  Every exception raised while
loading or executing the candidate, a `None` return, a non-DataFrame
return, and a failed frame comparison are all converted into
`(False, feedback)` by the enclosing `try/except Exception`; the function
always returns a pair and never propagates a candidate fault. -/
def run_parser_test (parserFileExists : Bool) (exec : ExecOutcome) (rawExpected : DF) :
    Bool × String :=
  if parserFileExists = false then (false, noFileMsg)
  else
    match exec with
    | ExecOutcome.fault t m => (false, mkFeedback t m)
    | ExecOutcome.retNone => (false, mkFeedback ("TypeError") noneReturnMsg)
    | ExecOutcome.retNonDF ty => (false, mkFeedback ("TypeError") (wrongTypeMsg ty))
    | ExecOutcome.retDF df =>
      match compareDF (normExpectedDF rawExpected) (normResultDF df) with
      | Report.matched => (true, passMsg)
      | r => (false, mkFeedback ("AssertionError") (reportText r))

/-! ### The attempt loop (main, lines 195-210) -/

/-- Attempt ceiling (line 14). -/
def MAX_ATTEMPTS : Nat := 3

/-- Result of a whole run of main's loop: whether it ended in success or
exhaustion, the final candidate, and how many comparisons (calls of
run_parser_test) and repair calls (calls of fix_parser) were performed. -/
structure RunResult (C : Type) where
  success : Bool
  finalCand : C
  comparisons : Nat
  repairs : Nat
deriving Repr

/-- Models `for attempt in range(1, MAX_ATTEMPTS + 1)` (lines 195-210) with
`fuel` = number of attempts still available (so `fuel = 0` is the empty
range, never reached when called with `MAX_ATTEMPTS = 3`): run the test;
on success return; on failure either repair and continue (more attempts
remain) or break exhausted (last attempt). -/
def attemptLoop {C : Type} (test : C → Bool × String) (fix : C → String → C) :
    C → Nat → RunResult C
  | c, 0 => ⟨false, c, 0, 0⟩
  | c, n + 1 =>
    match test c with
    | (true, _) => ⟨true, c, 1, 0⟩
    | (false, fb) =>
      if n = 0 then ⟨false, c, 1, 0⟩
      else
        let r := attemptLoop test fix (fix c fb) n
        ⟨r.success, r.finalCand, r.comparisons + 1, r.repairs + 1⟩

/-- Main's loop with the source's attempt budget.  `test` abstracts
`run_parser_test` applied to the current candidate and the fixed input
artifacts; `fix` abstracts `fix_parser`. -/
def runMain {C : Type} (test : C → Bool × String) (fix : C → String → C) (c0 : C) :
    RunResult C :=
  attemptLoop test fix c0 MAX_ATTEMPTS

/-! ### The repair prompt (fix_parser, lines 136-154) -/

def fixPromptHead : String :=
  "\n    You are an AI code-fixing agent. The following Python parser failed its test.\n    Read the error feedback and the original code, then provide a corrected version.\n\n    **Failure Feedback:**\n    ```\n    "

def fixPromptMid : String :=
  "\n    ```\n\n    **Hint:** If the error is a `DataFrame shape mismatch`, it means your code did not extract all the rows from the PDF. Your logic MUST iterate through all pages of the document. If the error is about a `Debit` or `Credit` column, remember that a transaction can only be one or the other.\n\n    **Original Code:**\n    ```python\n    "

def fixPromptTail : String :=
  "\n    ```\n\n    Your task is to rewrite the entire Python script to fix the bug.\n    Your response must contain ONLY the corrected Python code, enclosed in ```python ... ```.\n    "

/-- The repair prompt sent to the model (the f-string of lines 136-154),
with the failure feedback and the current program text interpolated. -/
def fixPrompt (feedback originalCode : String) : String :=
  fixPromptHead ++ feedback ++ fixPromptMid ++ originalCode ++ fixPromptTail

/-- The multi-page hint phrase inside the prompt. -/
def hintMultiPage : String := "iterate through all pages of the document"

/-- The mutually-exclusive Debit/Credit hint phrase inside the prompt. -/
def hintDebitCredit : String := "a transaction can only be one or the other"

/-! ### Code-fence extraction (generate_parser lines 70-79, fix_parser 157-162) -/

def fenceMarker : String := "```python"

def fenceEnd : String := "```"

/-- Models `if "```python" in code: code = code.split("```python")[1].split("```")[0].strip()`. -/
def extractFenced (responseText : String) : String :=
  if strContains responseText fenceMarker = true then
    pyStrip ((((responseText.splitOn fenceMarker).getD 1 ("")).splitOn fenceEnd).getD 0 (""))
  else responseText

/-- File text written by generate_parser (lines 70-79) from the model's
raw response. -/
def generate_parser_code (responseText : String) : String := extractFenced responseText

/-- File text written by fix_parser (lines 157-162) from the model's raw
response; the source repeats the same extraction snippet. -/
def fix_parser_code (responseText : String) : String := extractFenced responseText

/-! ### Concrete instances used by witnesses -/

/-- A test oracle that fails on every candidate. -/
def failTest : Unit → Bool × String := fun _ => (false, "still failing")

/-- A repair operation that returns the candidate unchanged. -/
def idFix : Unit → String → Unit := fun u _ => u

/-- A test oracle whose candidate raises a runtime fault. -/
def faultTest : Unit → Bool × String :=
  fun _ => run_parser_test true (ExecOutcome.fault ("ValueError") ("boom")) []

/-- A one-cell produced dataset that matches `okRaw`. -/
def okDF : PyDF := [("Amount", [PyCell.pyStr ("100.00")])]

/-- The raw expected CSV matching `okDF`. -/
def okRaw : DF := [("Amount", ["100.00"])]

/-- A test oracle whose candidate matches on the first attempt. -/
def okTest : Unit → Bool × String :=
  fun _ => run_parser_test true (ExecOutcome.retDF okDF) okRaw

/-- A one-cell dataset whose cell strips to a textual null. -/
def spacedNanDF : PyDF := [("Amount", [PyCell.pyStr (" nan ")])]

/-! ## Helper lemmas: the attempt loop -/

/-- Step equation: a successful test ends the loop at once. -/
theorem attemptLoop_succ_of_true {C : Type}
    (test : C → Bool × String) (fix : C → String → C) (c : C) (n : Nat) (fb : String)
    (h : test c = (true, fb)) :
    attemptLoop test fix c (n + 1) = ⟨true, c, 1, 0⟩ := by
  simp [attemptLoop, h]

/-- Step equation: a failed test on the last available attempt ends the loop
exhausted, with no further repair. -/
theorem attemptLoop_one_of_false {C : Type}
    (test : C → Bool × String) (fix : C → String → C) (c : C) (fb : String)
    (h : test c = (false, fb)) :
    attemptLoop test fix c 1 = ⟨false, c, 1, 0⟩ := by
  simp [attemptLoop, h]

/-- Step equation: a failed test with attempts remaining triggers one repair
call and continues with the repaired candidate. -/
theorem attemptLoop_succ_of_false {C : Type}
    (test : C → Bool × String) (fix : C → String → C) (c : C) (n : Nat) (fb : String)
    (h : test c = (false, fb)) (hn : n ≠ 0) :
    attemptLoop test fix c (n + 1) =
      ⟨(attemptLoop test fix (fix c fb) n).success,
        (attemptLoop test fix (fix c fb) n).finalCand,
        (attemptLoop test fix (fix c fb) n).comparisons + 1,
        (attemptLoop test fix (fix c fb) n).repairs + 1⟩ := by
  simp [attemptLoop, h, hn]

/-- Every run of the loop with at least one attempt available performs
exactly one comparison more than it performs repairs (one comparison per
attempt; every attempt except the last is followed by a repair). -/
theorem attemptLoop_comparisons_eq_repairs_succ {C : Type}
    (test : C → Bool × String) (fix : C → String → C) :
    ∀ (n : Nat) (c : C),
      (attemptLoop test fix c (n + 1)).comparisons =
        (attemptLoop test fix c (n + 1)).repairs + 1 := by
  intro n
  induction n with
  | zero =>
    intro c
    rcases hp : test c with ⟨b, fb⟩
    cases b
    · rw [attemptLoop_one_of_false test fix c fb hp]
    · rw [attemptLoop_succ_of_true test fix c 0 fb hp]
  | succ m ih =>
    intro c
    rcases hp : test c with ⟨b, fb⟩
    cases b
    · rw [attemptLoop_succ_of_false test fix c (m + 1) fb hp (Nat.succ_ne_zero m)]
      simpa using ih (fix c fb)
    · rw [attemptLoop_succ_of_true test fix c (m + 1) fb hp]

/-- The loop never performs more comparisons than it has attempts of fuel. -/
theorem attemptLoop_comparisons_le {C : Type}
    (test : C → Bool × String) (fix : C → String → C) :
    ∀ (n : Nat) (c : C), (attemptLoop test fix c n).comparisons ≤ n := by
  intro n
  induction n with
  | zero => intro c; simp [attemptLoop]
  | succ m ih =>
    intro c
    rcases hp : test c with ⟨b, fb⟩
    cases b
    · cases m with
      | zero => rw [attemptLoop_one_of_false test fix c fb hp]
      | succ k =>
        rw [attemptLoop_succ_of_false test fix c (k + 1) fb hp (Nat.succ_ne_zero k)]
        have := ih (fix c fb)
        simp only
        omega
    · rw [attemptLoop_succ_of_true test fix c m fb hp]
      simp

/-- On an always-failing test oracle the loop uses all its fuel: with `n + 1`
attempts it performs `n + 1` comparisons and `n` repairs and ends unsuccessful. -/
theorem attemptLoop_all_fail {C : Type}
    (test : C → Bool × String) (fix : C → String → C)
    (hf : ∀ c, (test c).fst = false) :
    ∀ (n : Nat) (c : C),
      (attemptLoop test fix c (n + 1)).success = false ∧
        (attemptLoop test fix c (n + 1)).comparisons = n + 1 ∧
        (attemptLoop test fix c (n + 1)).repairs = n := by
  intro n
  induction n with
  | zero =>
    intro c
    rcases hp : test c with ⟨b, fb⟩
    have hb : b = false := by simpa [hp] using hf c
    subst hb
    rw [attemptLoop_one_of_false test fix c fb hp]
    simp
  | succ m ih =>
    intro c
    rcases hp : test c with ⟨b, fb⟩
    have hb : b = false := by simpa [hp] using hf c
    subst hb
    rw [attemptLoop_succ_of_false test fix c (m + 1) fb hp (Nat.succ_ne_zero m)]
    have := ih (fix c fb)
    exact ⟨this.1, by simp only; omega, by simp only; omega⟩

/-! ## Claim theorems: the attempt loop -/

/-- C1: for a candidate whose validation fails on every attempt, main's loop
performs exactly `MAX_ATTEMPTS` (= 3) comparisons and exactly
`MAX_ATTEMPTS - 1` (= 2) repair calls and terminates unsuccessfully
(Exhausted); moreover in every run it performs exactly one comparison per
attempt (comparisons = repairs + 1), at most `MAX_ATTEMPTS` comparisons and
at most `MAX_ATTEMPTS - 1` repair calls. -/
theorem C1_attempt_bound {C : Type}
    (test : C → Bool × String) (fix : C → String → C) (c0 : C) :
    ((∀ c, (test c).fst = false) →
        (runMain test fix c0).success = false ∧
          (runMain test fix c0).comparisons = MAX_ATTEMPTS ∧
          (runMain test fix c0).repairs = MAX_ATTEMPTS - 1) ∧
      (runMain test fix c0).comparisons = (runMain test fix c0).repairs + 1 ∧
      (runMain test fix c0).comparisons ≤ MAX_ATTEMPTS ∧
      (runMain test fix c0).repairs ≤ MAX_ATTEMPTS - 1 := by
  have heq := attemptLoop_comparisons_eq_repairs_succ test fix 2 c0
  have hle := attemptLoop_comparisons_le test fix 3 c0
  refine ⟨?_, ?_, ?_, ?_⟩
  · intro hf
    have := attemptLoop_all_fail test fix hf 2 c0
    exact ⟨this.1, this.2.1, this.2.2⟩
  · exact heq
  · exact hle
  · have : (attemptLoop test fix c0 3).comparisons = (attemptLoop test fix c0 3).repairs + 1 := heq
    simp only [runMain, MAX_ATTEMPTS]
    omega

/-- Witness for C1: an always-failing oracle with the identity repair,
run from the unit candidate. -/
theorem C1_attempt_bound_witness :
    (runMain failTest idFix ()).success = false ∧
      (runMain failTest idFix ()).comparisons = MAX_ATTEMPTS ∧
      (runMain failTest idFix ()).repairs = MAX_ATTEMPTS - 1 :=
  (C1_attempt_bound failTest idFix ()).1 (fun _ => rfl)

/-- C3: if the first attempt's candidate matches (its test returns success),
main's loop performs exactly one comparison and zero repair calls and
terminates successfully; and a candidate whose produced DataFrame compares
as `matched` against the expected one yields a successful test. -/
theorem C3_success_short_circuit :
    (∀ (C : Type) (test : C → Bool × String) (fix : C → String → C) (c0 : C) (fb : String),
        test c0 = (true, fb) →
          (runMain test fix c0).success = true ∧
            (runMain test fix c0).comparisons = 1 ∧
            (runMain test fix c0).repairs = 0) ∧
      (∀ (df : PyDF) (raw : DF),
        compareDF (normExpectedDF raw) (normResultDF df) = Report.matched →
          run_parser_test true (ExecOutcome.retDF df) raw = (true, passMsg)) := by
  constructor
  · intro C test fix c0 fb h
    have : runMain test fix c0 = ⟨true, c0, 1, 0⟩ := by
      simp only [runMain, MAX_ATTEMPTS]
      exact attemptLoop_succ_of_true test fix c0 2 fb h
    rw [this]
    exact ⟨rfl, rfl, rfl⟩
  · intro df raw h
    simp [run_parser_test, h]

/-! ## Helper lemmas: substring containment -/

theorem toList_append (a b : String) : (a ++ b).toList = a.toList ++ b.toList :=
  String.data_append a b

theorem charsPrefixTest_append {p t : List Char} (y : List Char)
    (h : charsPrefixTest p t = true) : charsPrefixTest p (t ++ y) = true := by
  induction p generalizing t with
  | nil => simp [charsPrefixTest]
  | cons a pa ih =>
    cases t with
    | nil => simp [charsPrefixTest] at h
    | cons b bs =>
      simp only [charsPrefixTest, Bool.and_eq_true] at h
      simp only [List.cons_append, charsPrefixTest, Bool.and_eq_true]
      exact ⟨h.1, ih h.2⟩

theorem charsPrefixTest_refl (p : List Char) : charsPrefixTest p p = true := by
  induction p with
  | nil => rfl
  | cons a pa ih => simp [charsPrefixTest, ih]

theorem charsContains_of_prefixTest {pat t : List Char}
    (h : charsPrefixTest pat t = true) : charsContains pat t = true := by
  cases t with
  | nil => exact h
  | cons b bs => simp [charsContains, h]

theorem charsContains_append_left {pat t : List Char}
    (h : charsContains pat t = true) (x : List Char) :
    charsContains pat (x ++ t) = true := by
  induction x with
  | nil => exact h
  | cons a xs ih =>
    simp only [List.cons_append, charsContains, Bool.or_eq_true]
    exact Or.inr ih

theorem charsContains_append_right {pat t : List Char}
    (h : charsContains pat t = true) (y : List Char) :
    charsContains pat (t ++ y) = true := by
  induction t with
  | nil =>
    have hp : charsPrefixTest pat [] = true := h
    have : charsPrefixTest pat y = true := by simpa using charsPrefixTest_append y hp
    exact charsContains_of_prefixTest this
  | cons b bs ih =>
    simp only [charsContains, Bool.or_eq_true] at h
    rcases h with h | h
    · exact charsContains_of_prefixTest (by simpa [List.cons_append] using charsPrefixTest_append y h)
    · simp only [List.cons_append, charsContains, Bool.or_eq_true]
      exact Or.inr (ih h)

theorem strContains_self (t : String) : strContains t t = true :=
  charsContains_of_prefixTest (charsPrefixTest_refl t.toList)

theorem strContains_append_left {t pat : String} (h : strContains t pat = true)
    (a : String) : strContains (a ++ t) pat = true := by
  unfold strContains at *
  rw [toList_append]
  exact charsContains_append_left h a.toList

theorem strContains_append_right {t pat : String} (h : strContains t pat = true)
    (y : String) : strContains (t ++ y) pat = true := by
  unfold strContains at *
  rw [toList_append]
  exact charsContains_append_right h y.toList

/-- A feedback message built by the `except` block always names the
exception type it reports. -/
theorem mentions_mkFeedback (t m : String) : Mentions t (mkFeedback t m) := by
  unfold Mentions mkFeedback
  apply strContains_append_right
  apply strContains_append_right
  apply strContains_append_right
  exact strContains_append_left (strContains_self t) feedbackHead

/-! ## Claim theorem: fault containment -/

/-- C2: every fault raised while loading or executing a candidate, a `None`
return, and a non-DataFrame return are all converted by run_parser_test
into a `(False, feedback)` result naming the error type — the function
returns normally instead of propagating — and a loop whose first attempt
produces such a failure goes on to a repair call and a further comparison
(the Repairing state) rather than terminating. -/
theorem C2_fault_containment :
    (∀ (t m : String) (raw : DF),
        (run_parser_test true (ExecOutcome.fault t m) raw).fst = false ∧
          Mentions t (run_parser_test true (ExecOutcome.fault t m) raw).snd) ∧
      (∀ raw : DF,
        (run_parser_test true ExecOutcome.retNone raw).fst = false ∧
          Mentions ("TypeError") (run_parser_test true ExecOutcome.retNone raw).snd) ∧
      (∀ (ty : String) (raw : DF),
        (run_parser_test true (ExecOutcome.retNonDF ty) raw).fst = false ∧
          Mentions ("TypeError") (run_parser_test true (ExecOutcome.retNonDF ty) raw).snd) ∧
      (∀ (C : Type) (test : C → Bool × String) (fix : C → String → C) (c0 : C)
          (t m : String) (raw : DF),
        test c0 = run_parser_test true (ExecOutcome.fault t m) raw →
          1 ≤ (runMain test fix c0).repairs ∧ 2 ≤ (runMain test fix c0).comparisons) := by
  refine ⟨?_, ?_, ?_, ?_⟩
  · intro t m raw
    exact ⟨rfl, mentions_mkFeedback t m⟩
  · intro raw
    exact ⟨rfl, mentions_mkFeedback ("TypeError") noneReturnMsg⟩
  · intro ty raw
    exact ⟨rfl, mentions_mkFeedback ("TypeError") (wrongTypeMsg ty)⟩
  · intro C test fix c0 t m raw h
    have hfalse : test c0 = (false, mkFeedback t m) := h
    have hrw : runMain test fix c0 =
        ⟨(attemptLoop test fix (fix c0 (mkFeedback t m)) 2).success,
          (attemptLoop test fix (fix c0 (mkFeedback t m)) 2).finalCand,
          (attemptLoop test fix (fix c0 (mkFeedback t m)) 2).comparisons + 1,
          (attemptLoop test fix (fix c0 (mkFeedback t m)) 2).repairs + 1⟩ := by
      simp only [runMain, MAX_ATTEMPTS]
      exact attemptLoop_succ_of_false test fix c0 2 (mkFeedback t m) hfalse (by omega)
    have hinner :=
      attemptLoop_comparisons_eq_repairs_succ test fix 1 (fix c0 (mkFeedback t m))
    norm_num at hinner
    rw [hrw]
    constructor
    · simp
    · simp only
      omega

/-- Witness for C2: a candidate raising `ValueError` is contained and the
loop proceeds to repair. -/
theorem C2_fault_containment_witness :
    1 ≤ (runMain faultTest idFix ()).repairs ∧
      2 ≤ (runMain faultTest idFix ()).comparisons :=
  C2_fault_containment.2.2.2 Unit faultTest idFix () ("ValueError") ("boom") [] rfl

/-- Witness for C3: a candidate whose one-cell DataFrame equals the expected
CSV passes on attempt 1, and the loop stops after one comparison. -/
theorem C3_success_short_circuit_witness :
    (runMain okTest idFix ()).success = true ∧
      (runMain okTest idFix ()).comparisons = 1 ∧
      (runMain okTest idFix ()).repairs = 0 :=
  C3_success_short_circuit.1 Unit okTest idFix () passMsg
    (by
      have h := C3_success_short_circuit.2 okDF okRaw (by decide)
      simpa [okTest] using h)

/-! ## Claim theorems: repair prompt hints and fence extraction -/

/-- Any phrase contained in the fixed middle section of the repair prompt
template is mentioned by every generated repair prompt. -/
theorem mentions_fixPrompt_of_mid {pat : String}
    (h : strContains fixPromptMid pat = true) (fb code : String) :
    Mentions pat (fixPrompt fb code) := by
  unfold Mentions fixPrompt
  exact strContains_append_right
    (strContains_append_right (strContains_append_left h (fixPromptHead ++ fb)) code)
    fixPromptTail

/-- C9 (amended): the repair prompt sent to the code-generation port
mentions multi-page iteration — in particular whenever validation failed
with a row-count (shape) mismatch — and also carries the mutually-exclusive
Debit/Credit hint; however neither hint is conditionally triggered: both
are fixed parts of the prompt template, present for every failure kind. -/
theorem C9_repair_prompt_hints (fb code : String) :
    Mentions hintMultiPage (fixPrompt fb code) ∧
      Mentions hintDebitCredit (fixPrompt fb code) :=
  ⟨mentions_fixPrompt_of_mid (by decide) fb code,
    mentions_fixPrompt_of_mid (by decide) fb code⟩

/-- C9 counterexample: a failure that is not a `ShapeMismatch` (a candidate
returning `None`, reported as a TypeError) still yields a repair prompt
mentioning multi-page iteration — the hint is not triggered by
`ShapeMismatch`, refuting the claimed conditional triggering. -/
theorem C9_hint_counterexample :
    (run_parser_test true ExecOutcome.retNone []).fst = false ∧
      Mentions hintMultiPage
        (fixPrompt (run_parser_test true ExecOutcome.retNone []).snd ("code")) :=
  ⟨rfl, mentions_fixPrompt_of_mid (by decide) _ _⟩

/-- C10: when the model's response contains no "```python" fence, both the
initial generation and the repair step write the raw response text verbatim
as the candidate program — fence-stripping happens only on the marked
branch. -/
theorem C10_no_fence_verbatim (r : String)
    (h : strContains r fenceMarker = false) :
    generate_parser_code r = r ∧ fix_parser_code r = r := by
  unfold generate_parser_code fix_parser_code extractFenced
  rw [h]
  simp

/-- Witness for C10: a fence-free response is written unchanged. -/
theorem C10_no_fence_verbatim_witness :
    generate_parser_code ("import pandas") = "import pandas" ∧
      fix_parser_code ("import pandas") = "import pandas" :=
  C10_no_fence_verbatim ("import pandas") (by decide)

/-! ## Helper lemmas: stripping -/

theorem dropWhile_head_false {p : Char → Bool} :
    ∀ {l : List Char} {a : Char} {t : List Char},
      List.dropWhile p l = a :: t → p a = false := by
  intro l
  induction l with
  | nil => intro a t h; simp [List.dropWhile] at h
  | cons b bs ih =>
    intro a t h
    by_cases hb : p b = true
    · rw [List.dropWhile_cons_of_pos hb] at h
      exact ih h
    · rw [List.dropWhile_cons_of_neg hb] at h
      cases h
      simpa using hb

theorem dropWhile_dropWhile (p : Char → Bool) (l : List Char) :
    List.dropWhile p (List.dropWhile p l) = List.dropWhile p l := by
  cases h : List.dropWhile p l with
  | nil => simp
  | cons a t =>
    have ha := dropWhile_head_false h
    exact List.dropWhile_cons_of_neg (by simp [ha])

theorem stripList_idem (l : List Char) : stripList (stripList l) = stripList l := by
  unfold stripList
  set m := l.dropWhile isPySpace with hm
  set r := m.reverse.dropWhile isPySpace with hr
  have h1 : r.reverse.dropWhile isPySpace = r.reverse := by
    cases hrv : r.reverse with
    | nil => simp
    | cons c cs =>
      have hcr : r.getLast? = some c := by
        rw [← List.head?_reverse, hrv]
        rfl
      have hrne : r ≠ [] := by
        intro h0
        rw [h0] at hrv
        simp at hrv
      obtain ⟨pre, hpre⟩ : ∃ t, t ++ r = m.reverse := List.dropWhile_suffix isPySpace
      have hlast : (m.reverse).getLast? = some c := by
        rw [← hpre, List.getLast?_append_of_ne_nil pre hrne]
        exact hcr
      have hheadm : m.head? = some c := by
        rw [← List.getLast?_reverse]
        exact hlast
      obtain ⟨t2, ht2⟩ : ∃ t2, m = c :: t2 := by
        cases hm2 : m with
        | nil => rw [hm2] at hheadm; simp at hheadm
        | cons d ds =>
          rw [hm2] at hheadm
          simp only [List.head?_cons, Option.some.injEq] at hheadm
          exact ⟨ds, by rw [hheadm]⟩
      have hc : isPySpace c = false := dropWhile_head_false (l := l) (by rw [← hm, ht2])
      exact List.dropWhile_cons_of_neg (by simp [hc])
  rw [h1, List.reverse_reverse, dropWhile_dropWhile]

theorem pyStrip_idem (s : String) : pyStrip (pyStrip s) = pyStrip s := by
  show String.mk (stripList (stripList s.toList)) = String.mk (stripList s.toList)
  rw [stripList_idem]

theorem pyStrip_getLast_not_space {s : String} {c : Char}
    (h : (pyStrip s).toList.getLast? = some c) : isPySpace c = false := by
  have h2 : (((s.toList.dropWhile isPySpace).reverse.dropWhile isPySpace).reverse).getLast?
      = some c := h
  rw [List.getLast?_reverse] at h2
  cases hq : (s.toList.dropWhile isPySpace).reverse.dropWhile isPySpace with
  | nil => rw [hq] at h2; simp at h2
  | cons d ds =>
    rw [hq] at h2
    simp only [List.head?_cons, Option.some.injEq] at h2
    rw [← h2]
    exact dropWhile_head_false hq

/-- A stripped string never ends in a newline, so it is never one of the
newline-trailing textual-null forms. -/
theorem pyStrip_not_in_NL (s : String) :
    textualNullsNL.contains (pyStrip s) = false := by
  by_cases h : textualNullsNL.contains (pyStrip s) = true
  · exfalso
    have hmem : pyStrip s = "nan\n" ∨ pyStrip s = "<NA>\n" ∨ pyStrip s = "None\n" := by
      simpa [textualNullsNL] using h
    have hnl : (pyStrip s).toList.getLast? = some '\n' := by
      rcases hmem with h1 | h1 | h1 <;> rw [h1] <;> rfl
    have := pyStrip_getLast_not_space hnl
    simp [isPySpace] at this
  · simpa using h

/-- Idempotence of the produced-side cell pipeline on a cell whose stripped
form, if it is a textual null token, was already collapsed unstripped. -/
theorem resultNormCell_idem_of (x : PyCell)
    (h : textualNulls.contains (pyStrip (pyCellStr x)) = true →
        collapseNullToken (pyCellStr x) ≠ pyCellStr x) :
    resultNormCell (PyCell.pyStr (resultNormCell x)) = resultNormCell x := by
  show pyStrip (collapseNullToken (pyStrip (collapseNullToken (pyCellStr x)))) =
    pyStrip (collapseNullToken (pyCellStr x))
  by_cases h1 : textualNulls.contains (pyCellStr x) = true
  · have hm : pyCellStr x = "nan" ∨ pyCellStr x = "<NA>" ∨ pyCellStr x = "None" := by
      simpa [textualNulls] using h1
    rcases hm with hx | hx | hx <;> rw [hx] <;> decide
  · by_cases h2 : textualNullsNL.contains (pyCellStr x) = true
    · have hm : pyCellStr x = "nan\n" ∨ pyCellStr x = "<NA>\n" ∨ pyCellStr x = "None\n" := by
        simpa [textualNullsNL] using h2
      rcases hm with hx | hx | hx <;> rw [hx] <;> decide
    · have h1m : pyCellStr x ∉ textualNulls := by simpa using h1
      have h2m : pyCellStr x ∉ textualNullsNL := by simpa using h2
      have hcol : collapseNullToken (pyCellStr x) = pyCellStr x := by
        simp [collapseNullToken, h1m, h2m]
      rw [hcol]
      have hu1 : pyStrip (pyCellStr x) ∉ textualNulls := by
        by_cases hq : textualNulls.contains (pyStrip (pyCellStr x)) = true
        · exact absurd hcol (h hq)
        · simpa using hq
      have hu2 : pyStrip (pyCellStr x) ∉ textualNullsNL := by
        simpa using pyStrip_not_in_NL (pyCellStr x)
      have hcol2 : collapseNullToken (pyStrip (pyCellStr x)) = pyStrip (pyCellStr x) := by
        simp [collapseNullToken, hu1, hu2]
      rw [hcol2]
      exact pyStrip_idem (pyCellStr x)

/-! ## Claim theorems: normalization -/

/-- C4 counterexample: the two sides do not share one
raw-value-to-canonical-string mapping.  The CSV field "NULL" is a pandas
default NA token, so the expected side reads it as missing and normalizes
it to the empty string, while the produced side's replace only collapses
the exact forms nan/<NA>/None and leaves "NULL" intact. -/
theorem C4_identical_mapping_counterexample :
    expectedNormCell ("NULL") = "" ∧
      resultNormCell (PyCell.pyStr ("NULL")) = "NULL" ∧
      ¬ (∀ s : String, expectedNormCell s = resultNormCell (PyCell.pyStr s)) := by
  refine ⟨by decide, by decide, fun hall => ?_⟩
  have := hall ("NULL")
  revert this
  decide

/-- C4 (amended): both datasets are fully normalized before any diffing
occurs — run_parser_test compares exactly the two normalized frames — and
the two cell pipelines agree on the canonical null forms and on every
string outside pandas' default NA token set; they are not identical,
because the expected side (via `pd.read_csv`) additionally collapses every
pandas default NA token (e.g. "NULL", "NaN", "N/A"), which the produced
side leaves unchanged. -/
theorem C4_normalization_amended :
    (∀ (df : PyDF) (raw : DF),
        run_parser_test true (ExecOutcome.retDF df) raw =
          (match compareDF (normExpectedDF raw) (normResultDF df) with
            | Report.matched => (true, passMsg)
            | r => (false, mkFeedback ("AssertionError") (reportText r)))) ∧
      (∀ s : String, pandasDefaultNA.contains s = false →
          textualNullsNL.contains s = false →
          expectedNormCell s = resultNormCell (PyCell.pyStr s)) ∧
      (∀ s : String, s = "nan" ∨ s = "<NA>" ∨ s = "None" ∨ s = "" →
          expectedNormCell s = "" ∧ resultNormCell (PyCell.pyStr s) = "") := by
  refine ⟨fun df raw => rfl, ?_, ?_⟩
  · intro s h1 h2
    have h3 : textualNulls.contains s = false := by
      by_cases hq : textualNulls.contains s = true
      · exfalso
        have hm : s = "nan" ∨ s = "<NA>" ∨ s = "None" := by simpa [textualNulls] using hq
        rcases hm with hx | hx | hx <;> rw [hx] at h1 <;> simp [pandasDefaultNA] at h1
      · simpa using hq
    show (if pandasDefaultNA.contains s = true then emptyStr else pyStrip s) =
      pyStrip (collapseNullToken s)
    rw [h1]
    simp only [Bool.false_eq_true, if_false]
    have h3m : s ∉ textualNulls := by simpa using h3
    have h2m : s ∉ textualNullsNL := by simpa using h2
    rw [show collapseNullToken s = s from by simp [collapseNullToken, h3m, h2m]]
  · intro s h
    rcases h with hx | hx | hx | hx <;> rw [hx] <;> exact ⟨by decide, by decide⟩

/-- Witness for C4 (amended): an ordinary cell value normalizes identically
on both sides. -/
theorem C4_normalization_amended_witness :
    expectedNormCell ("Hello") = resultNormCell (PyCell.pyStr ("Hello")) :=
  C4_normalization_amended.2.1 ("Hello") (by decide) (by decide)

/-- C5: each of the four null forms — the strings "nan", "<NA>", "None" and
a missing value — normalizes to the canonical empty string on both sides
(on the produced side also when the cell is an actual NaN / None / NA
value), and the comparator therefore treats any two of them as equal. -/
theorem C5_null_unification :
    (∀ s : String, s = "nan" ∨ s = "<NA>" ∨ s = "None" ∨ s = "" →
        expectedNormCell s = "") ∧
      (∀ c : PyCell,
        c ∈ [PyCell.pyStr ("nan"), PyCell.pyStr ("<NA>"), PyCell.pyStr ("None"),
              PyCell.pyStr (""), PyCell.pyNaN, PyCell.pyNone, PyCell.pyNA] →
          resultNormCell c = "") ∧
      (∀ (s : String) (c : PyCell),
        (s = "nan" ∨ s = "<NA>" ∨ s = "None" ∨ s = "") →
        c ∈ [PyCell.pyStr ("nan"), PyCell.pyStr ("<NA>"), PyCell.pyStr ("None"),
              PyCell.pyStr (""), PyCell.pyNaN, PyCell.pyNone, PyCell.pyNA] →
          compareDF (normExpectedDF [("A", [s])]) (normResultDF [("A", [c])]) =
            Report.matched) := by
  refine ⟨?_, ?_, ?_⟩
  · intro s h
    rcases h with hx | hx | hx | hx <;> rw [hx] <;> decide
  · intro c hc
    fin_cases hc <;> decide
  · intro s c hs hc
    rcases hs with hx | hx | hx | hx <;> rw [hx] <;> fin_cases hc <;> decide

/-- Witness for C5: "<NA>" on the expected side, an actual NaN on the
produced side, and a cross-form comparison all collapse to equality. -/
theorem C5_null_unification_witness :
    expectedNormCell ("<NA>") = "" ∧
      resultNormCell PyCell.pyNaN = "" ∧
      compareDF (normExpectedDF [("A", ["nan"])]) (normResultDF [("A", [PyCell.pyNone])]) =
        Report.matched :=
  ⟨C5_null_unification.1 ("<NA>") (Or.inr (Or.inl rfl)),
    C5_null_unification.2.1 PyCell.pyNaN (by decide),
    C5_null_unification.2.2 ("nan") PyCell.pyNone (Or.inl rfl) (by decide)⟩

/-- C6 counterexample: normalization is not idempotent.  The cell " nan "
is not collapsed by the anchored replace (it is not exactly "nan"), so one
pass strips it to "nan"; a second pass then collapses that to "".  -/
theorem C6_idempotence_counterexample :
    normResultDF (strToPy (normResultDF spacedNanDF)) ≠ normResultDF spacedNanDF ∧
      normResultDF spacedNanDF = [("Amount", ["nan"])] ∧
      normResultDF (strToPy (normResultDF spacedNanDF)) = [("Amount", [""])] :=
  ⟨by decide, by decide, by decide⟩

/-- C6 (amended): the produced-side normalization pipeline is idempotent on
every dataset none of whose cells strips to a textual null token without
already being collapsed unstripped; in general idempotence fails (see the
counterexample) because the null collapse runs before the whitespace trim. -/
theorem C6_normalize_idempotent_amended (d : PyDF)
    (h : ∀ col ∈ d, ∀ x ∈ col.2,
        textualNulls.contains (pyStrip (pyCellStr x)) = true →
          collapseNullToken (pyCellStr x) ≠ pyCellStr x) :
    normResultDF (strToPy (normResultDF d)) = normResultDF d := by
  unfold normResultDF strToPy
  rw [List.map_map, List.map_map]
  apply List.map_congr_left
  intro col hcol
  simp only [Function.comp]
  refine Prod.ext rfl ?_
  show ((col.2.map resultNormCell).map PyCell.pyStr).map resultNormCell =
    col.2.map resultNormCell
  rw [List.map_map, List.map_map]
  apply List.map_congr_left
  intro x hx
  exact resultNormCell_idem_of x (h col hcol x hx)

/-- Witness for C6 (amended): a dataset of ordinary cells re-normalizes to
itself. -/
theorem C6_normalize_idempotent_amended_witness :
    normResultDF (strToPy (normResultDF okDF)) = normResultDF okDF :=
  C6_normalize_idempotent_amended okDF (by decide)

/-! ## Helper lemmas: the comparator -/

theorem lookup_of_mem_nodup :
    ∀ (e : DF) (n : String) (cs : List String),
      (colNames e).Nodup → (n, cs) ∈ e → List.lookup n e = some cs := by
  intro e
  induction e with
  | nil => intro n cs hnd hm; simp at hm
  | cons c t ih =>
    intro n cs hnd hm
    obtain ⟨k, v⟩ := c
    rcases List.mem_cons.mp hm with heq | htail
    · rw [← heq]
      simp [List.lookup]
    · have hk : n ∈ colNames t := List.mem_map_of_mem Prod.fst htail
      have hnk : n ≠ k := by
        intro hq
        have hnodup := List.nodup_cons.mp hnd
        rw [hq] at hk
        exact hnodup.1 hk
      have hrec := ih n cs (List.nodup_cons.mp hnd).2 htail
      simpa [List.lookup, beq_eq_false_iff_ne.mpr hnk] using hrec

theorem lookup_some_mem :
    ∀ (e : DF) (n : String) (v : List String),
      List.lookup n e = some v → n ∈ colNames e := by
  intro e
  induction e with
  | nil => intro n v h; simp [List.lookup] at h
  | cons c t ih =>
    intro n v h
    obtain ⟨k, w⟩ := c
    by_cases hnk : n = k
    · rw [hnk]
      exact List.mem_cons_self k (colNames t)
    · have := ih n v (by simpa [List.lookup, beq_eq_false_iff_ne.mpr hnk] using h)
      exact List.mem_cons_of_mem k this

theorem firstDiff_self : ∀ (cs : List String) (k : Nat), firstDiff cs cs k = none := by
  intro cs
  induction cs with
  | nil => intro k; rfl
  | cons x xs ih => intro k; simpa [firstDiff] using ih (k + 1)

theorem firstDiff_none_iff :
    ∀ (es bs : List String) (k : Nat), es.length = bs.length →
      (firstDiff es bs k = none ↔ es = bs) := by
  intro es
  induction es with
  | nil =>
    intro bs k h
    cases bs with
    | nil => simp [firstDiff]
    | cons y ys => simp at h
  | cons x xs ih =>
    intro bs k h
    cases bs with
    | nil => simp at h
    | cons y ys =>
      simp only [firstDiff]
      by_cases hxy : x = y
      · rw [if_pos hxy, ih ys (k + 1) (by simpa using h)]
        simp [hxy]
      · rw [if_neg hxy]
        simp [hxy]

theorem firstColMismatch_none_forall :
    ∀ (L : List (String × Option (List String) × List String)),
      firstColMismatch L = none →
      ∀ x ∈ L, colMismatch x.2.1 x.2.2 = none := by
  intro L
  induction L with
  | nil => intro h x hx; simp at hx
  | cons c rest ih =>
    intro h x hx
    obtain ⟨n, oe, bs⟩ := c
    cases hcm : colMismatch oe bs with
    | some q =>
      obtain ⟨i2, ev2, bv2⟩ := q
      rw [firstColMismatch, hcm] at h
      simp at h
    | none =>
      rw [firstColMismatch, hcm] at h
      rcases List.mem_cons.mp hx with heq | htail
      · rw [heq]
        exact hcm
      · exact ih h x htail

theorem firstColMismatch_none_of_forall :
    ∀ (L : List (String × Option (List String) × List String)),
      (∀ x ∈ L, colMismatch x.2.1 x.2.2 = none) →
      firstColMismatch L = none := by
  intro L
  induction L with
  | nil => intro h; rfl
  | cons c rest ih =>
    intro h
    obtain ⟨n, oe, bs⟩ := c
    have hh : colMismatch oe bs = none := h (n, oe, bs) (List.mem_cons_self _ _)
    rw [firstColMismatch, hh]
    exact ih (fun x hx => h x (List.mem_cons_of_mem _ hx))

theorem swapCells_length (cs : List String) (i j : Nat) :
    (swapCells cs i j).length = cs.length := by
  simp [swapCells]

theorem swapCells_getD_left {cs : List String} {i j : Nat}
    (hi : i < cs.length) (hne : i ≠ j) :
    (swapCells cs i j).getD i emptyStr = cs.getD j emptyStr := by
  simp [swapCells, List.getD_eq_getElem?_getD, List.getElem?_set, hi, Ne.symm hne]

theorem nrows_swapRows (e : DF) (i j : Nat) : nrows (swapRows e i j) = nrows e := by
  cases e with
  | nil => rfl
  | cons c t => simp [swapRows, nrows, swapCells]

/-! ## Claim theorems: the comparator -/

/-- C7: the comparator ignores column order — comparing a well-formed
dataset against any permutation of its columns yields `matched` — while a
successful comparison forces the column-name sets of the two frames (with
at least one row) to coincide. -/
theorem C7_column_order_irrelevant :
    (∀ (e a : DF), wellformed e → List.Perm a e → compareDF e a = Report.matched) ∧
      (∀ (e a : DF), wellformed e → wellformed a → 1 ≤ nrows a →
        compareDF e a = Report.matched →
        ∀ n : String, (n ∈ colNames a ↔ n ∈ colNames e)) := by
  constructor
  · intro e a hwf hp
    have hnc : ncols e = ncols a := by
      simpa [ncols] using hp.length_eq.symm
    have hnr : nrows e = nrows a := by
      cases a with
      | nil =>
        have he : e = [] := (List.Perm.nil_eq hp).symm
        rw [he]
      | cons c t =>
        have hce : c ∈ e := hp.subset (List.mem_cons_self c t)
        have hlen := hwf.2 c hce
        show nrows e = c.2.length
        exact hlen.symm
    have hshape : (nrows e, ncols e) = (nrows a, ncols a) := by rw [hnr, hnc]
    unfold compareDF
    rw [if_neg (fun hq => hq hshape)]
    have hnone :
        firstColMismatch (a.map (fun c => (c.1, List.lookup c.1 e, c.2))) = none := by
      apply firstColMismatch_none_of_forall
      intro x hx
      obtain ⟨c, hc, rfl⟩ := List.mem_map.mp hx
      have hce : c ∈ e := hp.subset hc
      have hlk : List.lookup c.1 e = some c.2 := by
        have := lookup_of_mem_nodup e c.1 c.2 hwf.1 (by simpa using hce)
        simpa using this
      simp only [hlk, colMismatch, firstDiff_self, Option.map_none']
    rw [hnone]
  · intro e a hwfe hwfa hrows hcmp n
    by_cases hsh : (nrows e, ncols e) ≠ (nrows a, ncols a)
    · exfalso
      unfold compareDF at hcmp
      rw [if_pos hsh] at hcmp
      simp at hcmp
    · have hshape := not_not.mp hsh
      have hnc : ncols e = ncols a := congrArg Prod.snd hshape
      unfold compareDF at hcmp
      rw [if_neg hsh] at hcmp
      cases hfc : firstColMismatch (a.map (fun c => (c.1, List.lookup c.1 e, c.2))) with
      | some q =>
        obtain ⟨n2, i2, ev2, av2⟩ := q
        rw [hfc] at hcmp
        simp at hcmp
      | none =>
        have hall := firstColMismatch_none_forall _ hfc
        have hsub : ∀ m ∈ colNames a, m ∈ colNames e := by
          intro m hm
          obtain ⟨c, hc, rfl⟩ := List.mem_map.mp hm
          have hx : (c.1, List.lookup c.1 e, c.2) ∈
              a.map (fun c => (c.1, List.lookup c.1 e, c.2)) :=
            List.mem_map_of_mem _ hc
          have hcm := hall _ hx
          have hlen : c.2.length = nrows a := hwfa.2 c hc
          cases hlk : List.lookup c.1 e with
          | none =>
            exfalso
            rw [hlk] at hcm
            cases hcs : c.2 with
            | nil => rw [hcs] at hlen; simp at hlen; omega
            | cons y ys => rw [hcs] at hcm; simp [colMismatch] at hcm
          | some v => exact lookup_some_mem e c.1 v hlk
        have hlena : (colNames a).length = (colNames e).length := by
          simp only [colNames, List.length_map]
          simpa [ncols] using hnc.symm
        have hfinsub : (colNames a).toFinset ⊆ (colNames e).toFinset := by
          intro m hm
          exact List.mem_toFinset.mpr (hsub m (List.mem_toFinset.mp hm))
        have hcards : (colNames e).toFinset.card ≤ (colNames a).toFinset.card := by
          rw [List.toFinset_card_of_nodup hwfe.1, List.toFinset_card_of_nodup hwfa.1]
          omega
        have hfeq := Finset.eq_of_subset_of_card_le hfinsub hcards
        constructor
        · exact hsub n
        · intro hne
          have : n ∈ (colNames e).toFinset := List.mem_toFinset.mpr hne
          rw [← hfeq] at this
          exact List.mem_toFinset.mp this

/-- C8: the comparator is row-order sensitive — swapping two distinct,
unequal rows of a well-formed dataset makes the comparison against the
original fail with a value mismatch. -/
theorem C8_row_order_sensitive (e : DF) (i j : Nat) (hwf : wellformed e)
    (hi : i < nrows e) (hne : i ≠ j)
    (hrow : rowAt e i ≠ rowAt e j) :
    (compareDF e (swapRows e i j)).isValue = true := by
  have hshape : (nrows e, ncols e) = (nrows (swapRows e i j), ncols (swapRows e i j)) := by
    rw [nrows_swapRows]
    simp [ncols, swapRows]
  obtain ⟨c, hc, hcd⟩ : ∃ c ∈ e, c.2.getD i emptyStr ≠ c.2.getD j emptyStr := by
    by_contra hall
    push_neg at hall
    exact hrow (List.map_congr_left hall)
  have hL : (swapRows e i j).map (fun c => (c.1, List.lookup c.1 e, c.2)) =
      e.map (fun c => (c.1, List.lookup c.1 e, swapCells c.2 i j)) := by
    unfold swapRows
    rw [List.map_map]
    rfl
  have hlk : List.lookup c.1 e = some c.2 := by
    have := lookup_of_mem_nodup e c.1 c.2 hwf.1 (by simpa using hc)
    simpa using this
  have hxmem : (c.1, List.lookup c.1 e, swapCells c.2 i j) ∈
      e.map (fun c => (c.1, List.lookup c.1 e, swapCells c.2 i j)) :=
    List.mem_map_of_mem _ hc
  have hcm : colMismatch (List.lookup c.1 e) (swapCells c.2 i j) ≠ none := by
    rw [hlk]
    have hlen : c.2.length = nrows e := hwf.2 c hc
    have hi2 : i < c.2.length := by omega
    have hneq : c.2 ≠ swapCells c.2 i j := by
      intro heq
      have : c.2.getD i emptyStr = (swapCells c.2 i j).getD i emptyStr := by rw [← heq]
      rw [swapCells_getD_left hi2 hne] at this
      exact hcd this
    have hfd : firstDiff c.2 (swapCells c.2 i j) 0 ≠ none := by
      intro hq
      exact hneq ((firstDiff_none_iff c.2 (swapCells c.2 i j) 0
        (by rw [swapCells_length])).mp hq)
    simp only [colMismatch]
    intro hq
    exact hfd (by simpa using hq)
  have hfcm : firstColMismatch
      ((swapRows e i j).map (fun c => (c.1, List.lookup c.1 e, c.2))) ≠ none := by
    rw [hL]
    intro hq
    exact hcm (firstColMismatch_none_forall _ hq _ hxmem)
  obtain ⟨q, hq⟩ := Option.ne_none_iff_exists'.mp hfcm
  obtain ⟨n2, i2, ev2, av2⟩ := q
  unfold compareDF
  rw [if_neg (fun hz => hz hshape), hq]
  rfl

/-- Concrete two-column dataset for the comparator witnesses. -/
def twoColDF : DF := [("A", ["1", "2"]), ("B", ["x", "y"])]

/-- The same dataset with its columns permuted. -/
def twoColDFperm : DF := [("B", ["x", "y"]), ("A", ["1", "2"])]

/-- Witness for C7: a two-column permutation compares as matched, and the
matched comparison has equal column-name sets. -/
theorem C7_column_order_irrelevant_witness :
    compareDF twoColDF twoColDFperm = Report.matched ∧
      ("B" ∈ colNames twoColDFperm ↔ "B" ∈ colNames twoColDF) :=
  ⟨C7_column_order_irrelevant.1 twoColDF twoColDFperm (by decide) (by decide),
    C7_column_order_irrelevant.2 twoColDF twoColDFperm (by decide) (by decide) (by decide)
      (C7_column_order_irrelevant.1 twoColDF twoColDFperm (by decide) (by decide)) ("B")⟩

/-- Witness for C8: swapping the two (unequal) rows of the two-column
dataset yields a value mismatch. -/
theorem C8_row_order_sensitive_witness :
    (compareDF twoColDF (swapRows twoColDF 0 1)).isValue = true :=
  C8_row_order_sensitive twoColDF 0 1 (by decide) (by decide) (by decide) (by decide)

end BankAgent
